import Mathlib

/-!
# Verification of the write-assistant service core (`app.py`)

A shallow embedding of the single source file `app.py`: the slider
validator (`validate_slider_values`), the prompt builder
(`create_processing_prompt`), the upload-extension filter
(`allowed_file`) and the `/process` request handler (`process_text`),
together with proofs of the specified properties.

Modelling conventions:
* Flask form data (`request.form`) is an association list of string keys
  to string values; `get` returns the first binding.
* Python `int(...)` applied to a form string is `pyInt?`, returning
  `none` when the conversion raises `ValueError`; applied to `None`
  (a missing key looked up without a default) it raises `TypeError`,
  modelled by `getSlider?` returning `none`.
* The uploaded file's raw bytes are modelled by whether they decode as
  UTF-8 (`FileBytes.utf8 s`), or raise `UnicodeDecodeError`
  (`FileBytes.invalid`).
* The OpenAI chat-completion call is an oracle input `LLMResult`: its
  outcome (success content / RateLimitError / InvalidRequestError /
  any other exception) is a parameter of the handler.
* The handler returns an `Outcome`: the JSON response with its HTTP
  status, plus the user-turn prompt passed to the external call
  (`none` when no external call was made).
-/

set_option maxRecDepth 4000

namespace WriteAssistant

/-- The whitespace characters Python's `str.strip()` and `int(str)`
discard (the ASCII ones; the claims never involve exotic Unicode
spaces). -/
def pyIsSpace (c : Char) : Bool :=
  c == ' ' || c == '\t' || c == '\n' || c == '\r' || c == '\x0b' || c == '\x0c'

/-- Python `str.strip()`: drop leading and trailing whitespace. -/
def pyStrip (s : String) : String :=
  ⟨((s.data.dropWhile pyIsSpace).reverse.dropWhile pyIsSpace).reverse⟩

/-- Python `int(s)` on a string: strip surrounding whitespace, optional
sign, then a non-empty run of decimal digits; `none` when `int` would
raise `ValueError`. -/
def digitsVal? (cs : List Char) : Option Nat :=
  if cs.isEmpty then none
  else
    cs.foldl
      (fun acc c =>
        match acc with
        | none => none
        | some n => if c.isDigit then some (10 * n + (c.toNat - ('0').toNat)) else none)
      (some 0)

/-- Python `int` conversion of a form string. -/
def pyInt? (s : String) : Option Int :=
  match (pyStrip s).data with
  | '+' :: cs => (digitsVal? cs).map Int.ofNat
  | '-' :: cs => (digitsVal? cs).map (fun n => -(n : Int))
  | cs => (digitsVal? cs).map Int.ofNat

/-- Flask form data: association list of field names to raw string values. -/
abbrev Form := List (String × String)

/-- `request.form.get(k)`: the first binding of `k`, `none` when absent. -/
def formGet? (data : Form) (k : String) : Option String :=
  (data.find? (fun p => p.1 == k)).map (fun p => p.2)

/-- `ALLOWED_EXTENSIONS = {'txt', 'md'}` (app.py line 29). -/
def ALLOWED_EXTENSIONS : List String := ["txt", "md"]

/-- `filename.rsplit('.', 1)[1]`: the part after the last dot. -/
def extAfterLastDot (filename : String) : String :=
  ⟨(filename.data.reverse.takeWhile (fun c => c != '.')).reverse⟩

/-- `allowed_file` (app.py lines 38-39):
`'.' in filename and filename.rsplit('.', 1)[1].lower() in ALLOWED_EXTENSIONS`. -/
def allowed_file (filename : String) : Bool :=
  filename.data.contains '.' &&
    ALLOWED_EXTENSIONS.contains ⟨(extAfterLastDot filename).data.map Char.toLower⟩

/-- `required_params` (app.py line 43), in the source's fixed order. -/
def required_params : List String := ["faithfulness", "human_like", "ai_like", "formality"]

/-- `int(data.get(param, 0))` (app.py line 47): a missing key defaults to
the integer `0` before conversion; a present value is a form string fed
to Python `int`, `none` when that conversion raises. -/
def getParamInt? (data : Form) (param : String) : Option Int :=
  match formGet? data param with
  | none => some 0
  | some s => pyInt? s

/-- The loop body of `validate_slider_values` (app.py lines 45-53) over an
explicit list of parameter names: convert (`none` = `ValueError` or
`TypeError`, caught at line 50), then range-check, short-circuiting on
the first failure. -/
def validateFrom (data : Form) : List String → Bool × Option String
  | [] => (true, none)
  | param :: rest =>
    match getParamInt? data param with
    | none => (false, some (param ++ " must be a valid number"))
    | some value =>
      if 0 ≤ value ∧ value ≤ 10 then validateFrom data rest
      else (false, some (param ++ " must be between 0 and 10"))

/-- `validate_slider_values` (app.py lines 41-53). -/
def validate_slider_values (data : Form) : Bool × Option String :=
  validateFrom data required_params

/-! ## Prompt builder (app.py lines 55-101) -/

/-- Low-band faithfulness directive (app.py line 65). -/
def faithfulnessLow : String :=
  "Make significant changes and improvements to the content while preserving core meaning."

/-- Mid-band faithfulness directive (app.py line 67). -/
def faithfulnessMid : String :=
  "Make moderate changes to improve clarity and flow while keeping most original content."

/-- High-band faithfulness directive (app.py line 69). -/
def faithfulnessHigh : String :=
  "Make minimal changes, focusing only on essential corrections and improvements."

/-- Low-band human-like directive (app.py line 73). -/
def humanLikeLow : String :=
  "Use very natural, conversational language with contractions and casual expressions."

/-- Mid-band human-like directive (app.py line 75). -/
def humanLikeMid : String :=
  "Use moderately natural language that sounds human but polished."

/-- High-band human-like directive (app.py line 77). -/
def humanLikeHigh : String :=
  "Use highly natural, warm, and engaging human language with personality."

/-- Low-band AI-like directive (app.py line 81). -/
def aiLikeLow : String :=
  "Avoid any mechanical or robotic phrasing; sound completely human."

/-- Mid-band AI-like directive (app.py line 83). -/
def aiLikeMid : String :=
  "Use some structured phrasing but maintain natural flow."

/-- High-band AI-like directive (app.py line 85). -/
def aiLikeHigh : String :=
  "Use precise, structured language that sounds more systematic and analytical."

/-- Low-band formality directive (app.py line 89). -/
def formalityLow : String :=
  "Use very casual, informal language appropriate for friends or social media."

/-- Mid-band formality directive (app.py line 91). -/
def formalityMid : String :=
  "Use moderately formal language suitable for business communication."

/-- High-band formality directive (app.py line 93). -/
def formalityHigh : String :=
  "Use highly formal, academic or professional language."

/-- Band selection for `faithfulness` (app.py lines 64-69):
`if faithfulness <= 2: ... elif faithfulness <= 5: ... else: ...`. -/
def faithfulnessDirective (faithfulness : Int) : String :=
  if faithfulness ≤ 2 then faithfulnessLow
  else if faithfulness ≤ 5 then faithfulnessMid
  else faithfulnessHigh

/-- Band selection for `human_like` (app.py lines 72-77). -/
def humanLikeDirective (human_like : Int) : String :=
  if human_like ≤ 2 then humanLikeLow
  else if human_like ≤ 5 then humanLikeMid
  else humanLikeHigh

/-- Band selection for `ai_like` (app.py lines 80-85). -/
def aiLikeDirective (ai_like : Int) : String :=
  if ai_like ≤ 2 then aiLikeLow
  else if ai_like ≤ 5 then aiLikeMid
  else aiLikeHigh

/-- Band selection for `formality` (app.py lines 88-93). -/
def formalityDirective (formality : Int) : String :=
  if formality ≤ 2 then formalityLow
  else if formality ≤ 5 then formalityMid
  else formalityHigh

/-- Fixed preamble (app.py line 60). -/
def promptHeader : String :=
  "Please process the following text according to these specific parameters:"

/-- Faithfulness sub-heading with the numeric level (app.py line 61). -/
def faithLabel (v : Int) : String :=
  "\n**Faithfulness to Original (Level " ++ toString v ++ "/10):**"

/-- Human-like sub-heading with the numeric level (app.py line 71). -/
def humanLabel (v : Int) : String :=
  "\n**Human-like Sound (Level " ++ toString v ++ "/10):**"

/-- AI-like sub-heading with the numeric level (app.py line 79). -/
def aiLabel (v : Int) : String :=
  "\n**AI-like Sound (Level " ++ toString v ++ "/10):**"

/-- Formality sub-heading with the numeric level (app.py line 87). -/
def formLabel (v : Int) : String :=
  "\n**Formality Level (Level " ++ toString v ++ "/10):**"

/-- Label of the input-text section (app.py line 96). -/
def textLabel : String := "\n**Text to process:**"

/-- Fixed closing instruction (app.py line 98). -/
def promptTail : String :=
  "\n**Instructions:** Apply the above parameters to rewrite this text. Return only the processed text without explanations."

/-- `create_processing_prompt` (app.py lines 55-101): the `prompt_parts`
list built in source order, then `"".join(prompt_parts)` — concatenation
with no separator (`String.join`). -/
def create_processing_prompt (text : String)
    (faithfulness human_like ai_like formality : Int) : String :=
  let prompt_parts : List String :=
    [ promptHeader,
      faithLabel faithfulness,
      faithfulnessDirective faithfulness,
      humanLabel human_like,
      humanLikeDirective human_like,
      aiLabel ai_like,
      aiLikeDirective ai_like,
      formLabel formality,
      formalityDirective formality,
      textLabel,
      "\n" ++ text,
      promptTail ]
  String.join prompt_parts

/-! ## Request handler (app.py lines 107-228) -/

/-- The bytes of an uploaded file, abstracted by their UTF-8 decodability:
`utf8 s` decodes to `s`, `invalid` raises `UnicodeDecodeError`
(app.py lines 127-129). -/
inductive FileBytes
  | utf8 (s : String)
  | invalid
deriving DecidableEq

/-- The `request.files['file']` entry: a filename and raw content. -/
structure UploadedFile where
  filename : String
  content : FileBytes
deriving DecidableEq

/-- The two failure modes of text resolution (app.py lines 129-139). -/
inductive ResolveError
  | badEncoding
  | noInput
deriving DecidableEq

/-- `request.form.get('text_input', '').strip()` (app.py line 119). -/
def strippedTextField (form : Form) : String :=
  pyStrip ((formGet? form "text_input").getD "")

/-- Text resolution (app.py lines 119-139): the stripped text field; the
file block (`if 'file' in request.files`, the truthiness/extension guard,
the UTF-8 decode, and `text_input = file_content if not text_input else
text_input`); then the empty-input check. -/
def resolveText (form : Form) (files : Option UploadedFile) : Except ResolveError String :=
  let text_input := strippedTextField form
  let afterFile : Except ResolveError String :=
    match files with
    | some file =>
      if file.filename ≠ "" ∧ allowed_file file.filename then
        match file.content with
        | .utf8 file_content => .ok (if text_input = "" then file_content else text_input)
        | .invalid => .error .badEncoding
      else .ok text_input
    | none => .ok text_input
  match afterFile with
  | .error e => .error e
  | .ok t => if t = "" then .error .noInput else .ok t

/-- The `parameters` object echoed by a successful response
(app.py lines 184-189). -/
structure Params where
  faithfulness : Int
  human_like : Int
  ai_like : Int
  formality : Int
deriving DecidableEq

/-- A JSON response body of the service; absent keys are `none`. -/
structure Envelope where
  success : Bool
  original_text : Option String := none
  processed_text : Option String := none
  parameters : Option Params := none
  error : Option String := none
deriving DecidableEq

/-- A JSON body with its HTTP status code. -/
structure Response where
  status : Nat
  body : Envelope
deriving DecidableEq

/-- The failure-envelope shape `jsonify({'success': False, 'error': msg}), status`. -/
def errResp (status : Nat) (msg : String) : Response :=
  ⟨status, { success := false, error := some msg }⟩

/-- Outcome of the `openai.ChatCompletion.create` call (app.py lines
165-207): the message content on success, or which exception was raised. -/
inductive LLMResult
  | success (content : String)
  | rateLimit
  | invalidRequest (msg : String)
  | otherError (msg : String)

/-- What a request produces: the response, and the user-turn prompt that
was passed to the external completion call (`none` when the handler
returned before making the call). -/
structure Outcome where
  response : Response
  sentPrompt : Option String
deriving DecidableEq

/-- `int(request.form.get(param))` (app.py lines 153-156): a missing key
yields `None` and `int(None)` raises `TypeError`; a present value is
converted by Python `int`, raising `ValueError` when non-numeric. Both
exceptions propagate to the handler's outer `except` (line 209). -/
def getSlider? (form : Form) (param : String) : Option Int :=
  match formGet? form param with
  | none => none
  | some s => pyInt? s

/-- `process_text` (app.py lines 107-214): API-key guard, text
resolution, length check, slider validation, re-read of the sliders,
prompt construction, external call, and the mapping of the call's
outcome (and of uncaught exceptions) to JSON responses. -/
def process_text (apiKeyConfigured : Bool) (form : Form)
    (files : Option UploadedFile) (llm : LLMResult) : Outcome :=
  if apiKeyConfigured = false then
    ⟨errResp 500 "OpenAI API key not configured. Please contact administrator.", none⟩
  else
    match resolveText form files with
    | .error .badEncoding => ⟨errResp 400 "File must be valid UTF-8 text", none⟩
    | .error .noInput => ⟨errResp 400 "Please provide text input or upload a text file", none⟩
    | .ok text_input =>
      if text_input.length > 10000 then
        ⟨errResp 400 "Text input too long. Maximum 10,000 characters allowed.", none⟩
      else
        match validate_slider_values form with
        | (false, error_msg) => ⟨⟨400, { success := false, error := error_msg }⟩, none⟩
        | (true, _) =>
          match getSlider? form "faithfulness", getSlider? form "human_like",
                getSlider? form "ai_like", getSlider? form "formality" with
          | some faithfulness, some human_like, some ai_like, some formality =>
            let processing_prompt :=
              create_processing_prompt text_input faithfulness human_like ai_like formality
            match llm with
            | .success content =>
              ⟨⟨200, { success := true,
                       original_text := some text_input,
                       processed_text := some (pyStrip content),
                       parameters := some ⟨faithfulness, human_like, ai_like, formality⟩ }⟩,
               some processing_prompt⟩
            | .rateLimit =>
              ⟨errResp 429 "API rate limit exceeded. Please try again later.",
               some processing_prompt⟩
            | .invalidRequest msg =>
              ⟨errResp 400 ("Invalid request: " ++ msg), some processing_prompt⟩
            | .otherError _ =>
              ⟨errResp 500 "Failed to process text. Please try again.", some processing_prompt⟩
          | _, _, _, _ =>
            ⟨errResp 500 "An unexpected error occurred. Please try again.", none⟩

/-- The 413 error handler (app.py lines 216-221). -/
def too_large : Response := errResp 413 "File too large. Maximum size is 16MB."

/-- The 429 error handler (app.py lines 223-228). -/
def ratelimit_handler : Response := errResp 429 "Rate limit exceeded. Please try again later."

/-! ## Helper lemmas -/

/-- The built prompt, flattened: `"".join` of the parts is their
concatenation in source order. -/
theorem create_processing_prompt_decomp (text : String) (f h a fo : Int) :
    create_processing_prompt text f h a fo =
      promptHeader ++ faithLabel f ++ faithfulnessDirective f ++ humanLabel h
      ++ humanLikeDirective h ++ aiLabel a ++ aiLikeDirective a ++ formLabel fo
      ++ formalityDirective fo ++ textLabel ++ ("\n" ++ text) ++ promptTail := by
  simp [create_processing_prompt, String.join, String.empty_append]

/-! ## Claims about the prompt builder -/

/-- C1: for every integer value `v` in `[0, 10]` and each of the four
parameters, the builder selects the low-band directive iff `v ≤ 2`, the
mid-band directive iff `3 ≤ v ≤ 5`, and the high-band directive iff
`v ≥ 6` (no off-by-one at the `2/3` and `5/6` boundaries), and the
selected directive is included in the prompt. -/
theorem C1_band_boundaries (v : Int) (hv0 : 0 ≤ v) (hv10 : v ≤ 10) :
    ((faithfulnessDirective v = faithfulnessLow ↔ v ≤ 2)
      ∧ (faithfulnessDirective v = faithfulnessMid ↔ 3 ≤ v ∧ v ≤ 5)
      ∧ (faithfulnessDirective v = faithfulnessHigh ↔ 6 ≤ v))
  ∧ ((humanLikeDirective v = humanLikeLow ↔ v ≤ 2)
      ∧ (humanLikeDirective v = humanLikeMid ↔ 3 ≤ v ∧ v ≤ 5)
      ∧ (humanLikeDirective v = humanLikeHigh ↔ 6 ≤ v))
  ∧ ((aiLikeDirective v = aiLikeLow ↔ v ≤ 2)
      ∧ (aiLikeDirective v = aiLikeMid ↔ 3 ≤ v ∧ v ≤ 5)
      ∧ (aiLikeDirective v = aiLikeHigh ↔ 6 ≤ v))
  ∧ ((formalityDirective v = formalityLow ↔ v ≤ 2)
      ∧ (formalityDirective v = formalityMid ↔ 3 ≤ v ∧ v ≤ 5)
      ∧ (formalityDirective v = formalityHigh ↔ 6 ≤ v))
  ∧ (∀ t h a fo, ∃ pre post,
      create_processing_prompt t v h a fo = pre ++ (faithfulnessDirective v ++ post))
  ∧ (∀ t f a fo, ∃ pre post,
      create_processing_prompt t f v a fo = pre ++ (humanLikeDirective v ++ post))
  ∧ (∀ t f h fo, ∃ pre post,
      create_processing_prompt t f h v fo = pre ++ (aiLikeDirective v ++ post))
  ∧ (∀ t f h a, ∃ pre post,
      create_processing_prompt t f h a v = pre ++ (formalityDirective v ++ post)) := by
  refine ⟨?_, ?_, ?_, ?_, ?_, ?_, ?_, ?_⟩
  · interval_cases v <;> decide
  · interval_cases v <;> decide
  · interval_cases v <;> decide
  · interval_cases v <;> decide
  · intro t h a fo
    exact ⟨promptHeader ++ faithLabel v,
      humanLabel h ++ humanLikeDirective h ++ aiLabel a ++ aiLikeDirective a
        ++ formLabel fo ++ formalityDirective fo ++ textLabel ++ ("\n" ++ t) ++ promptTail,
      by rw [create_processing_prompt_decomp]; simp only [String.append_assoc]⟩
  · intro t f a fo
    exact ⟨promptHeader ++ faithLabel f ++ faithfulnessDirective f ++ humanLabel v,
      aiLabel a ++ aiLikeDirective a ++ formLabel fo ++ formalityDirective fo
        ++ textLabel ++ ("\n" ++ t) ++ promptTail,
      by rw [create_processing_prompt_decomp]; simp only [String.append_assoc]⟩
  · intro t f h fo
    exact ⟨promptHeader ++ faithLabel f ++ faithfulnessDirective f ++ humanLabel h
        ++ humanLikeDirective h ++ aiLabel v,
      formLabel fo ++ formalityDirective fo ++ textLabel ++ ("\n" ++ t) ++ promptTail,
      by rw [create_processing_prompt_decomp]; simp only [String.append_assoc]⟩
  · intro t f h a
    exact ⟨promptHeader ++ faithLabel f ++ faithfulnessDirective f ++ humanLabel h
        ++ humanLikeDirective h ++ aiLabel a ++ aiLikeDirective a ++ formLabel v,
      textLabel ++ ("\n" ++ t) ++ promptTail,
      by rw [create_processing_prompt_decomp]; simp only [String.append_assoc]⟩

/-- C1 witness: the boundaries exercised at the concrete values 2, 3, 5
and 6. -/
theorem C1_band_boundaries_witness :
    faithfulnessDirective 2 = faithfulnessLow
  ∧ humanLikeDirective 3 = humanLikeMid
  ∧ aiLikeDirective 5 = aiLikeMid
  ∧ formalityDirective 6 = formalityHigh :=
  ⟨(C1_band_boundaries 2 (by decide) (by decide)).1.1.mpr (by decide),
   (C1_band_boundaries 3 (by decide) (by decide)).2.1.2.1.mpr ⟨by decide, by decide⟩,
   (C1_band_boundaries 5 (by decide) (by decide)).2.2.1.2.1.mpr ⟨by decide, by decide⟩,
   (C1_band_boundaries 6 (by decide) (by decide)).2.2.2.1.2.2.mpr (by decide)⟩

/-- C6: the prompt is, in order: the fixed preamble, one labelled
directive block per parameter in the order faithfulness, human_like,
ai_like, formality, the labelled section with the input text verbatim
(a contiguous substring), and the fixed closing instruction. -/
theorem C6_prompt_structure (t : String) (f h a fo : Int) :
    create_processing_prompt t f h a fo =
      promptHeader ++ faithLabel f ++ faithfulnessDirective f ++ humanLabel h
      ++ humanLikeDirective h ++ aiLabel a ++ aiLikeDirective a ++ formLabel fo
      ++ formalityDirective fo ++ textLabel ++ ("\n" ++ t) ++ promptTail
  ∧ ∃ pre post, create_processing_prompt t f h a fo = pre ++ (t ++ post) := by
  refine ⟨create_processing_prompt_decomp t f h a fo,
    ⟨promptHeader ++ faithLabel f ++ faithfulnessDirective f ++ humanLabel h
       ++ humanLikeDirective h ++ aiLabel a ++ aiLikeDirective a ++ formLabel fo
       ++ formalityDirective fo ++ textLabel ++ "\n", promptTail, ?_⟩⟩
  rw [create_processing_prompt_decomp]; simp only [String.append_assoc]

/-- C7: prompt construction is pure and deterministic — two invocations
on identical inputs produce the same string; the output depends on
nothing but the five arguments. -/
theorem C7_prompt_deterministic (t t' : String) (f h a fo f' h' a' fo' : Int)
    (ht : t = t') (hf : f = f') (hh : h = h') (ha : a = a') (hfo : fo = fo') :
    create_processing_prompt t f h a fo = create_processing_prompt t' f' h' a' fo' := by
  rw [ht, hf, hh, ha, hfo]

/-- C7 witness: determinism at a concrete input. -/
theorem C7_prompt_deterministic_witness :
    create_processing_prompt "Hello world" 0 0 0 0
      = create_processing_prompt "Hello world" 0 0 0 0 :=
  C7_prompt_deterministic "Hello world" "Hello world" 0 0 0 0 0 0 0 0 rfl rfl rfl rfl rfl

/-! ## Claims about the validator -/

/-- How a single parameter fares in `validate_slider_values`: converts
and lies in `[0, 10]`; fails conversion; or converts out of range. -/
inductive ParamCheck
  | ok
  | notNumber
  | outOfRange
deriving DecidableEq

/-- Classification of one parameter of the form data. -/
def paramCheck (data : Form) (param : String) : ParamCheck :=
  match getParamInt? data param with
  | none => .notNumber
  | some v => if 0 ≤ v ∧ v ≤ 10 then .ok else .outOfRange

/-- One step of the validation loop, phrased through `paramCheck`. -/
theorem validateFrom_cons (data : Form) (p : String) (rest : List String) :
    validateFrom data (p :: rest) =
      match paramCheck data p with
      | .notNumber => (false, some (p ++ " must be a valid number"))
      | .outOfRange => (false, some (p ++ " must be between 0 and 10"))
      | .ok => validateFrom data rest := by
  cases hg : getParamInt? data p with
  | none => simp [validateFrom, paramCheck, hg]
  | some v => by_cases h : 0 ≤ v ∧ v ≤ 10 <;> simp [validateFrom, paramCheck, hg, h]

/-- When every listed parameter checks out, the loop returns `Valid`. -/
theorem validateFrom_all_ok (data : Form) (l : List String)
    (h : ∀ p ∈ l, paramCheck data p = .ok) : validateFrom data l = (true, none) := by
  induction l with
  | nil => rfl
  | cons p rest ih =>
    rw [validateFrom_cons, h p (by simp)]
    exact ih (fun q hq => h q (by simp [hq]))

/-- First-error-wins: with every parameter before `p` passing, the loop
returns `p`'s failure reason, whatever comes after `p`. -/
theorem validateFrom_first_fail (data : Form) (pre : List String) (p : String)
    (post : List String) (hpre : ∀ q ∈ pre, paramCheck data q = .ok) :
    (paramCheck data p = .notNumber →
       validateFrom data (pre ++ p :: post) = (false, some (p ++ " must be a valid number")))
  ∧ (paramCheck data p = .outOfRange →
       validateFrom data (pre ++ p :: post) = (false, some (p ++ " must be between 0 and 10"))) := by
  induction pre with
  | nil =>
    constructor <;> intro hp <;> rw [List.nil_append, validateFrom_cons, hp]
  | cons q rest ih =>
    have hq : paramCheck data q = .ok := hpre q (by simp)
    have := ih (fun r hr => hpre r (by simp [hr]))
    constructor <;> intro hp <;>
      rw [List.cons_append, validateFrom_cons, hq]
    · exact this.1 hp
    · exact this.2 hp

/-- The validator never returns `False` with a missing reason. -/
theorem validateFrom_false_reason (data : Form) (l : List String) :
    validateFrom data l = (true, none)
  ∨ ∃ s, validateFrom data l = (false, some s) := by
  induction l with
  | nil => exact Or.inl rfl
  | cons p rest ih =>
    rw [validateFrom_cons]
    cases hp : paramCheck data p with
    | notNumber => exact Or.inr ⟨_, rfl⟩
    | outOfRange => exact Or.inr ⟨_, rfl⟩
    | ok => exact ih

/-- C2: `validate_slider_values` examines the four names in the fixed
order of `required_params` and surfaces exactly the first failure: an
absent parameter defaults to the integer `0` (which passes the range
check); if all four pass the result is `Valid` with no reason; a first
failing parameter `p` yields `Invalid` with the message
`p must be a valid number` on conversion failure or
`p must be between 0 and 10` when out of range, regardless of every
later parameter. -/
theorem C2_validator_first_error (data : Form) :
    (∀ p, formGet? data p = none →
       getParamInt? data p = some 0 ∧ paramCheck data p = .ok)
  ∧ ((∀ p ∈ required_params, paramCheck data p = .ok) →
       validate_slider_values data = (true, none))
  ∧ (∀ pre p post, required_params = pre ++ p :: post →
       (∀ q ∈ pre, paramCheck data q = .ok) →
       (paramCheck data p = .notNumber →
          validate_slider_values data = (false, some (p ++ " must be a valid number")))
     ∧ (paramCheck data p = .outOfRange →
          validate_slider_values data = (false, some (p ++ " must be between 0 and 10")))) := by
  refine ⟨?_, ?_, ?_⟩
  · intro p hp
    constructor
    · simp [getParamInt?, hp]
    · simp [paramCheck, getParamInt?, hp]
  · intro h
    exact validateFrom_all_ok data required_params h
  · intro pre p post hsplit hpre
    unfold validate_slider_values
    rw [hsplit]
    exact validateFrom_first_fail data pre p post hpre

/-- C2 witness: with `faithfulness = "3"`, `human_like = "abc"` and
`ai_like = "99"`, the reason surfaced is the first failure
(`human_like`), not the later out-of-range `ai_like`. -/
theorem C2_validator_first_error_witness :
    validate_slider_values [("faithfulness", "3"), ("human_like", "abc"), ("ai_like", "99")]
      = (false, some ("human_like" ++ " must be a valid number")) :=
  ((C2_validator_first_error [("faithfulness", "3"), ("human_like", "abc"), ("ai_like", "99")]).2.2
    ["faithfulness"] "human_like" ["ai_like", "formality"] rfl (by decide)).1 (by decide)

/-! ## Branch lemmas for the handler -/

/-- Missing API credential: immediate 500, no external call. -/
theorem process_text_noKey (form : Form) (files : Option UploadedFile) (llm : LLMResult) :
    process_text false form files llm
      = ⟨errResp 500 "OpenAI API key not configured. Please contact administrator.", none⟩ := rfl

/-- Undecodable upload: 400 encoding error, no external call. -/
theorem process_text_badEncoding (form : Form) (files : Option UploadedFile) (llm : LLMResult)
    (h : resolveText form files = .error .badEncoding) :
    process_text true form files llm
      = ⟨errResp 400 "File must be valid UTF-8 text", none⟩ := by
  simp [process_text, h]

/-- No input from either source: 400, no external call. -/
theorem process_text_noInput (form : Form) (files : Option UploadedFile) (llm : LLMResult)
    (h : resolveText form files = .error .noInput) :
    process_text true form files llm
      = ⟨errResp 400 "Please provide text input or upload a text file", none⟩ := by
  simp [process_text, h]

/-- Resolved text over 10,000 characters: 400 length error, no external call. -/
theorem process_text_tooLong (form : Form) (files : Option UploadedFile) (llm : LLMResult)
    (t : String) (ht : resolveText form files = .ok t) (hl : t.length > 10000) :
    process_text true form files llm
      = ⟨errResp 400 "Text input too long. Maximum 10,000 characters allowed.", none⟩ := by
  simp [process_text, ht, hl]

/-- Validator failure: its reason is echoed with a 400, no external call. -/
theorem process_text_invalidParams (form : Form) (files : Option UploadedFile) (llm : LLMResult)
    (t : String) (msg : Option String) (ht : resolveText form files = .ok t)
    (hl : ¬ t.length > 10000) (hv : validate_slider_values form = (false, msg)) :
    process_text true form files llm
      = ⟨⟨400, { success := false, error := msg }⟩, none⟩ := by
  simp [process_text, ht, hl, hv]

/-- A slider the validator defaulted but the re-read crashes on
(`int(None)` or `int` of a non-number): caught by the outer handler as a
generic 500, no external call. -/
theorem process_text_sliderCrash (form : Form) (files : Option UploadedFile) (llm : LLMResult)
    (t : String) (m : Option String) (ht : resolveText form files = .ok t)
    (hl : ¬ t.length > 10000) (hv : validate_slider_values form = (true, m))
    (hn : getSlider? form "faithfulness" = none ∨ getSlider? form "human_like" = none
        ∨ getSlider? form "ai_like" = none ∨ getSlider? form "formality" = none) :
    process_text true form files llm
      = ⟨errResp 500 "An unexpected error occurred. Please try again.", none⟩ := by
  cases h1 : getSlider? form "faithfulness" <;>
    cases h2 : getSlider? form "human_like" <;>
      cases h3 : getSlider? form "ai_like" <;>
        cases h4 : getSlider? form "formality" <;>
          simp_all [process_text]

/-- All stages pass: the prompt is built from the re-read sliders and
the call's outcome decides the response. -/
theorem process_text_llmCall (form : Form) (files : Option UploadedFile) (llm : LLMResult)
    (t : String) (m : Option String) (f h a fo : Int)
    (ht : resolveText form files = .ok t) (hl : ¬ t.length > 10000)
    (hv : validate_slider_values form = (true, m))
    (h1 : getSlider? form "faithfulness" = some f) (h2 : getSlider? form "human_like" = some h)
    (h3 : getSlider? form "ai_like" = some a) (h4 : getSlider? form "formality" = some fo) :
    process_text true form files llm =
      match llm with
      | .success content =>
        ⟨⟨200, { success := true,
                 original_text := some t,
                 processed_text := some (pyStrip content),
                 parameters := some ⟨f, h, a, fo⟩ }⟩,
         some (create_processing_prompt t f h a fo)⟩
      | .rateLimit =>
        ⟨errResp 429 "API rate limit exceeded. Please try again later.",
         some (create_processing_prompt t f h a fo)⟩
      | .invalidRequest msg =>
        ⟨errResp 400 ("Invalid request: " ++ msg), some (create_processing_prompt t f h a fo)⟩
      | .otherError _ =>
        ⟨errResp 500 "Failed to process text. Please try again.",
         some (create_processing_prompt t f h a fo)⟩ := by
  cases llm <;> simp [process_text, ht, hl, hv, h1, h2, h3, h4]

/-! ## Claims about the handler -/

/-- C3: when all four slider fields are absent the validator passes
(each defaults to 0), but the handler's re-read
`int(request.form.get(name))` receives `None` and raises, so the request
ends in the generic 500 envelope instead of a rewrite; such a request
can never succeed. -/
theorem C3_all_sliders_absent (form : Form) (files : Option UploadedFile) (llm : LLMResult)
    (hf : formGet? form "faithfulness" = none) (hh : formGet? form "human_like" = none)
    (ha : formGet? form "ai_like" = none) (hfo : formGet? form "formality" = none) :
    validate_slider_values form = (true, none)
  ∧ (∀ t, resolveText form files = .ok t → t.length ≤ 10000 →
      process_text true form files llm
        = ⟨errResp 500 "An unexpected error occurred. Please try again.", none⟩)
  ∧ (process_text true form files llm).response.body.success = false := by
  have hok : ∀ p ∈ required_params, paramCheck form p = .ok := by
    intro p hp
    simp only [required_params, List.mem_cons, List.not_mem_nil, or_false] at hp
    rcases hp with rfl | rfl | rfl | rfl <;>
      simp [paramCheck, getParamInt?, hf, hh, ha, hfo]
  have hvalid : validate_slider_values form = (true, none) :=
    validateFrom_all_ok form required_params hok
  have hcrash : ∀ t, resolveText form files = .ok t → t.length ≤ 10000 →
      process_text true form files llm
        = ⟨errResp 500 "An unexpected error occurred. Please try again.", none⟩ := by
    intro t ht hlen
    exact process_text_sliderCrash form files llm t none ht (by omega) hvalid
      (Or.inl (by simp [getSlider?, hf]))
  refine ⟨hvalid, hcrash, ?_⟩
  cases hres : resolveText form files with
  | error e =>
    cases e
    · simp [process_text_badEncoding form files llm hres, errResp]
    · simp [process_text_noInput form files llm hres, errResp]
  | ok t =>
    by_cases hlen : t.length > 10000
    · simp [process_text_tooLong form files llm t hres hlen, errResp]
    · simp [hcrash t hres (by omega), errResp]

/-- C3 witness: text present, all sliders omitted — generic 500. -/
theorem C3_all_sliders_absent_witness :
    process_text true [("text_input", "hello")] none (.success "ok")
      = ⟨errResp 500 "An unexpected error occurred. Please try again.", none⟩ :=
  (C3_all_sliders_absent [("text_input", "hello")] none (.success "ok")
    rfl rfl rfl rfl).2.1 "hello" rfl (by decide)

/-- C5: the stages run as resolution → length check → validation →
prompt construction → external call, and each failure short-circuits:
a resolution failure pre-empts everything, text over 10,000 characters
is rejected with the length-specific 400 before any prompt is built,
a validation failure is a 400 before any prompt is built, and whenever
no prompt was sent the outcome is independent of the external service. -/
theorem C5_stage_ordering (form : Form) (files : Option UploadedFile) (llm : LLMResult) :
    ((process_text false form files llm).sentPrompt = none)
  ∧ (∀ e, resolveText form files = .error e →
       (process_text true form files llm).sentPrompt = none)
  ∧ (∀ t, resolveText form files = .ok t → t.length > 10000 →
       process_text true form files llm
         = ⟨errResp 400 "Text input too long. Maximum 10,000 characters allowed.", none⟩)
  ∧ (∀ t msg, resolveText form files = .ok t → t.length ≤ 10000 →
       validate_slider_values form = (false, msg) →
       process_text true form files llm = ⟨⟨400, { success := false, error := msg }⟩, none⟩)
  ∧ (∀ llm', (process_text true form files llm).sentPrompt = none →
       process_text true form files llm = process_text true form files llm') := by
  refine ⟨by simp [process_text_noKey], ?_, ?_, ?_, ?_⟩
  · intro e he
    cases e
    · simp [process_text_badEncoding form files llm he]
    · simp [process_text_noInput form files llm he]
  · intro t ht hlen
    exact process_text_tooLong form files llm t ht hlen
  · intro t msg ht hlen hv
    exact process_text_invalidParams form files llm t msg ht (by omega) hv
  · intro llm' hnone
    cases hres : resolveText form files with
    | error e =>
      cases e
      · rw [process_text_badEncoding form files llm hres,
            process_text_badEncoding form files llm' hres]
      · rw [process_text_noInput form files llm hres,
            process_text_noInput form files llm' hres]
    | ok t =>
      by_cases hlen : t.length > 10000
      · rw [process_text_tooLong form files llm t hres hlen,
            process_text_tooLong form files llm' t hres hlen]
      · rcases hval : validate_slider_values form with ⟨b, msg⟩
        cases b
        · rw [process_text_invalidParams form files llm t msg hres hlen hval,
              process_text_invalidParams form files llm' t msg hres hlen hval]
        · rcases h1 : getSlider? form "faithfulness" with _ | f
          · rw [process_text_sliderCrash form files llm t msg hres hlen hval (Or.inl h1),
                process_text_sliderCrash form files llm' t msg hres hlen hval (Or.inl h1)]
          · rcases h2 : getSlider? form "human_like" with _ | h
            · rw [process_text_sliderCrash form files llm t msg hres hlen hval
                    (Or.inr (Or.inl h2)),
                  process_text_sliderCrash form files llm' t msg hres hlen hval
                    (Or.inr (Or.inl h2))]
            · rcases h3 : getSlider? form "ai_like" with _ | a
              · rw [process_text_sliderCrash form files llm t msg hres hlen hval
                      (Or.inr (Or.inr (Or.inl h3))),
                    process_text_sliderCrash form files llm' t msg hres hlen hval
                      (Or.inr (Or.inr (Or.inl h3)))]
              · rcases h4 : getSlider? form "formality" with _ | fo
                · rw [process_text_sliderCrash form files llm t msg hres hlen hval
                        (Or.inr (Or.inr (Or.inr h4))),
                      process_text_sliderCrash form files llm' t msg hres hlen hval
                        (Or.inr (Or.inr (Or.inr h4)))]
                · rw [process_text_llmCall form files llm t msg f h a fo
                        hres hlen hval h1 h2 h3 h4] at hnone
                  cases llm <;> simp at hnone

/-- C5 witness: an out-of-range slider stops the request with its 400
before any prompt is built or call made. -/
theorem C5_stage_ordering_witness :
    process_text true [("text_input", "hi"), ("faithfulness", "15")] none (.success "ok")
      = ⟨⟨400, { success := false, error := some "faithfulness must be between 0 and 10" }⟩,
         none⟩ :=
  (C5_stage_ordering [("text_input", "hi"), ("faithfulness", "15")] none
      (.success "ok")).2.2.2.1 "hi" (some "faithfulness must be between 0 and 10")
    rfl (by decide) rfl

/-- The ResponseEnvelope invariant: `success` is `true` exactly when the
body carries `processed_text` and `parameters` and no `error`; a failure
body always carries a message. -/
def envInv (e : Envelope) : Prop :=
  (e.success = true ↔ e.processed_text.isSome = true ∧ e.parameters.isSome = true ∧ e.error = none)
  ∧ (e.success = false → e.error.isSome = true)

/-- C8: every JSON body the service produces — any handler outcome, the
413 handler and the 429 handler — satisfies the envelope invariant. -/
theorem C8_envelope_invariant (apiKey : Bool) (form : Form) (files : Option UploadedFile)
    (llm : LLMResult) :
    envInv (process_text apiKey form files llm).response.body
  ∧ envInv too_large.body ∧ envInv ratelimit_handler.body := by
  refine ⟨?_, by simp [envInv, too_large, errResp],
    by simp [envInv, ratelimit_handler, errResp]⟩
  cases apiKey with
  | false => simp [process_text_noKey, envInv, errResp]
  | true =>
    cases hres : resolveText form files with
    | error e =>
      cases e
      · simp [process_text_badEncoding form files llm hres, envInv, errResp]
      · simp [process_text_noInput form files llm hres, envInv, errResp]
    | ok t =>
      by_cases hlen : t.length > 10000
      · simp [process_text_tooLong form files llm t hres hlen, envInv, errResp]
      · rcases hval : validate_slider_values form with ⟨b, msg⟩
        cases b
        · rcases validateFrom_false_reason form required_params with hall | ⟨s, hs⟩
          · rw [show validateFrom form required_params = validate_slider_values form from rfl,
              hval] at hall
            exact absurd hall (by simp)
          · rw [show validateFrom form required_params = validate_slider_values form from rfl,
              hval] at hs
            obtain ⟨rfl⟩ : msg = some s := by injection hs
            simp [process_text_invalidParams form files llm t (some s) hres hlen hval,
              envInv, errResp]
        · rcases h1 : getSlider? form "faithfulness" with _ | f
          · simp [process_text_sliderCrash form files llm t msg hres hlen hval (Or.inl h1),
              envInv, errResp]
          · rcases h2 : getSlider? form "human_like" with _ | h
            · simp [process_text_sliderCrash form files llm t msg hres hlen hval
                (Or.inr (Or.inl h2)), envInv, errResp]
            · rcases h3 : getSlider? form "ai_like" with _ | a
              · simp [process_text_sliderCrash form files llm t msg hres hlen hval
                  (Or.inr (Or.inr (Or.inl h3))), envInv, errResp]
              · rcases h4 : getSlider? form "formality" with _ | fo
                · simp [process_text_sliderCrash form files llm t msg hres hlen hval
                    (Or.inr (Or.inr (Or.inr h4))), envInv, errResp]
                · rw [process_text_llmCall form files llm t msg f h a fo
                    hres hlen hval h1 h2 h3 h4]
                  cases llm <;> simp [envInv, errResp]

/-- The guard of the file block (app.py line 124):
`file and file.filename and allowed_file(file.filename)`. -/
def fileConsidered : Option UploadedFile → Prop
  | none => False
  | some file => file.filename ≠ "" ∧ allowed_file file.filename

/-- C4 counterexample: with the non-empty text field `"hello"` and an
allowed upload whose bytes are not valid UTF-8, resolution returns the
encoding error — the text field does not take precedence over every
uploaded file. -/
theorem C4_counterexample :
    strippedTextField [("text_input", "hello")] = "hello"
  ∧ resolveText [("text_input", "hello")] (some ⟨"a.txt", .invalid⟩)
      = .error .badEncoding
  ∧ resolveText [("text_input", "hello")] (some ⟨"a.txt", .invalid⟩)
      ≠ .ok "hello" := by
  refine ⟨rfl, rfl, fun hc => ?_⟩
  rw [show resolveText [("text_input", "hello")] (some ⟨"a.txt", .invalid⟩)
      = Except.error ResolveError.badEncoding from rfl] at hc
  exact Except.noConfusion hc

/-- C4 (amended): the stripped text field takes precedence whenever the
upload is absent, ignored (empty filename or disallowed extension), or
decodes; an allowed upload that fails UTF-8 decoding aborts with the
distinct encoding error even when the text field is non-empty; an
allowed decodable upload supplies the text when the field is empty; and
when neither source yields non-empty text the result is the
provide-text-or-upload error. -/
theorem C4_text_resolution (form : Form) (files : Option UploadedFile) :
    (¬ fileConsidered files →
        (strippedTextField form ≠ "" →
            resolveText form files = .ok (strippedTextField form))
      ∧ (strippedTextField form = "" → resolveText form files = .error .noInput))
  ∧ (∀ file, files = some file → fileConsidered files →
       (file.content = .invalid → resolveText form files = .error .badEncoding)
     ∧ (∀ c, file.content = .utf8 c →
          (strippedTextField form ≠ "" →
              resolveText form files = .ok (strippedTextField form))
        ∧ (strippedTextField form = "" → c ≠ "" → resolveText form files = .ok c)
        ∧ (strippedTextField form = "" → c = "" →
              resolveText form files = .error .noInput))) := by
  constructor
  · intro hnc
    cases files with
    | none =>
      refine ⟨fun hne => ?_, fun he => ?_⟩
      · simp [resolveText, hne]
      · simp [resolveText, he]
    | some file =>
      have hcond : ¬ (file.filename ≠ "" ∧ allowed_file file.filename) := hnc
      refine ⟨fun hne => ?_, fun he => ?_⟩
      · simp [resolveText, hcond, hne]
      · simp [resolveText, hcond, he]
  · rintro file rfl hc
    have hname : file.filename ≠ "" := hc.1
    have hald : allowed_file file.filename = true := hc.2
    constructor
    · intro hinv
      simp [resolveText, hname, hald, hinv]
    · rintro c hcc
      refine ⟨fun hne => ?_, fun he hcne => ?_, fun he hce => ?_⟩
      · simp [resolveText, hname, hald, hcc, hne]
      · simp [resolveText, hname, hald, hcc, he, hcne]
      · simp [resolveText, hname, hald, hcc, he, hce]

/-- C4 witness: a typed text field is stripped and used as the input. -/
theorem C4_text_resolution_witness :
    resolveText [("text_input", " hi ")] none = .ok "hi" :=
  ((C4_text_resolution [("text_input", " hi ")] none).1 (fun hc => hc)).1 (by decide)

/-- C9 counterexample: a provider invalid-request failure is surfaced as
a 400 carrying the provider's detail, not as the generic 500 envelope
the claim assigns to every non-rate-limit provider failure. -/
theorem C9_counterexample :
    (process_text true
        [("text_input", "hello"), ("faithfulness", "5"), ("human_like", "5"),
         ("ai_like", "5"), ("formality", "5")]
        none (.invalidRequest "boom")).response
      = errResp 400 "Invalid request: boom"
  ∧ (process_text true
        [("text_input", "hello"), ("faithfulness", "5"), ("human_like", "5"),
         ("ai_like", "5"), ("formality", "5")]
        none (.invalidRequest "boom")).response
      ≠ errResp 500 "Failed to process text. Please try again." :=
  ⟨rfl, by decide⟩

/-- C9 (amended): for a request that reaches the external call, provider
rate-limit exhaustion yields the distinct 429 try-again-later envelope;
a provider invalid-request failure yields a 400 with the provider's
detail included; any other provider or transport failure yields the
generic 500 "Failed to process text" envelope, independent of the
underlying detail (which is therefore never returned); success yields
the 200 envelope with the original text, the output with surrounding
whitespace stripped, and the four integer parameters echoed. -/
theorem C9_outcome_mapping (form : Form) (files : Option UploadedFile)
    (t : String) (m : Option String) (f h a fo : Int)
    (ht : resolveText form files = .ok t) (hl : t.length ≤ 10000)
    (hv : validate_slider_values form = (true, m))
    (h1 : getSlider? form "faithfulness" = some f)
    (h2 : getSlider? form "human_like" = some h)
    (h3 : getSlider? form "ai_like" = some a)
    (h4 : getSlider? form "formality" = some fo) :
    process_text true form files .rateLimit
      = ⟨errResp 429 "API rate limit exceeded. Please try again later.",
         some (create_processing_prompt t f h a fo)⟩
  ∧ (∀ msg, process_text true form files (.invalidRequest msg)
      = ⟨errResp 400 ("Invalid request: " ++ msg),
         some (create_processing_prompt t f h a fo)⟩)
  ∧ (∀ detail detail',
        process_text true form files (.otherError detail)
          = ⟨errResp 500 "Failed to process text. Please try again.",
             some (create_processing_prompt t f h a fo)⟩
      ∧ process_text true form files (.otherError detail)
          = process_text true form files (.otherError detail'))
  ∧ (∀ content, process_text true form files (.success content)
      = ⟨⟨200, { success := true,
                 original_text := some t,
                 processed_text := some (pyStrip content),
                 parameters := some ⟨f, h, a, fo⟩ }⟩,
         some (create_processing_prompt t f h a fo)⟩) := by
  have hl' : ¬ t.length > 10000 := by omega
  refine ⟨?_, fun msg => ?_, fun d d' => ⟨?_, ?_⟩, fun content => ?_⟩
  · exact process_text_llmCall form files .rateLimit t m f h a fo ht hl' hv h1 h2 h3 h4
  · exact process_text_llmCall form files (.invalidRequest msg) t m f h a fo ht hl' hv h1 h2 h3 h4
  · exact process_text_llmCall form files (.otherError d) t m f h a fo ht hl' hv h1 h2 h3 h4
  · rw [process_text_llmCall form files (.otherError d) t m f h a fo ht hl' hv h1 h2 h3 h4,
        process_text_llmCall form files (.otherError d') t m f h a fo ht hl' hv h1 h2 h3 h4]
  · exact process_text_llmCall form files (.success content) t m f h a fo ht hl' hv h1 h2 h3 h4

/-- C9 witness: provider rate-limit exhaustion at a concrete request. -/
theorem C9_outcome_mapping_witness :
    process_text true
        [("text_input", "hello"), ("faithfulness", "5"), ("human_like", "5"),
         ("ai_like", "5"), ("formality", "5")] none .rateLimit
      = ⟨errResp 429 "API rate limit exceeded. Please try again later.",
         some (create_processing_prompt "hello" 5 5 5 5)⟩ :=
  (C9_outcome_mapping
    [("text_input", "hello"), ("faithfulness", "5"), ("human_like", "5"),
     ("ai_like", "5"), ("formality", "5")] none "hello" none 5 5 5 5
    rfl (by decide) rfl rfl rfl rfl rfl).1

/-- C10 counterexample: with no text field and only a `.pdf` upload, the
handler answers 400 with the generic provide-text message, which does
not mention the disallowed extension. -/
theorem C10_counterexample :
    process_text true [] (some ⟨"doc.pdf", .utf8 "hello"⟩) (.success "x")
      = ⟨errResp 400 "Please provide text input or upload a text file", none⟩
  ∧ ¬ ("pdf".data <:+: "Please provide text input or upload a text file".data) :=
  ⟨rfl, by decide⟩

/-- C10 (amended): a request whose only input source is an upload with a
disallowed extension is answered with a recoverable 400 and no external
call — but through the generic provide-text-or-upload message; the
disallowed extension is not identified. -/
theorem C10_disallowed_extension (form : Form) (files : Option UploadedFile)
    (file : UploadedFile) (llm : LLMResult) (hfile : files = some file)
    (hext : allowed_file file.filename = false)
    (htext : strippedTextField form = "") :
    process_text true form files llm
      = ⟨errResp 400 "Please provide text input or upload a text file", none⟩ := by
  subst hfile
  apply process_text_noInput
  simp [resolveText, hext, htext]

/-- C10 witness: a `.docx` upload with an empty text field. -/
theorem C10_disallowed_extension_witness :
    process_text true [] (some ⟨"notes.docx", .utf8 "content"⟩) .rateLimit
      = ⟨errResp 400 "Please provide text input or upload a text file", none⟩ :=
  C10_disallowed_extension [] (some ⟨"notes.docx", .utf8 "content"⟩)
    ⟨"notes.docx", .utf8 "content"⟩ .rateLimit rfl (by decide) rfl

end WriteAssistant
